import Mathlib

/-!
Shallow embedding of the medai-assistant repository: the two subprocess-relay
API routes (inference POST in the route file concatenated into
types/auth.ts, training GET/POST in api/train/route.ts), the login view
(app/page.tsx), the dashboard shell (app/dashboard/layout.tsx) and the
sidebar (app/dashboard/components/Sidebar.tsx).

Conventions of the embedding:
- `formData.get(k)` yields `null` when the field is absent; we model a
  multipart field as `Option String` (or `Option FileData` for binary
  fields). JavaScript truthiness of a string field: `null` and the empty
  string are falsy.
- A JavaScript template literal renders `null` as the string "null"
  (`optStr`).
- `path.join(process.cwd(), d)` is modelled as the relative path `d`
  (the constant working-directory prefix is dropped throughout; it is
  common to every path and irrelevant to every claim).
- `spawn(cmd, args)` coerces every element of `args` to a string, so a
  `null` form field becomes the literal argument "null" — the same
  rendering template literals give it; the model maps the argument array
  through `optStr`, and the spawn always happens once reached.
- The external process is opaque: its observable behaviour is a
  `ProcResult` (exit code, accumulated stdout, accumulated stderr), and
  `JSON.parse` is the opaque JavaScript builtin, modelled as a parameter
  `parse : String → Option Json` (`none` models a thrown SyntaxError).
- Each handler returns its HTTP response together with the ordered list
  of filesystem/process effects it performed (`Effect`), so that
  "before writing any file and before spawning" is expressible.
-/

/-- JSON values, used for response bodies and for parsed process output. -/
inductive Json where
  | null : Json
  | bool : Bool → Json
  | num : Int → Json
  | str : String → Json
  | arr : List Json → Json
  | obj : List (String × Json) → Json

/-- Observable behaviour of one spawned external process: exit code and the
accumulated standard-output and standard-error text. -/
structure ProcResult where
  exitCode : Int
  stdout : String
  stderr : String

/-- An uploaded multipart file; only its name is relevant to the claims. -/
structure FileData where
  name : String

/-- A filesystem or process side effect of a handler, in execution order. -/
inductive Effect where
  | mkdirE : String → Effect
  | writeFileE : String → Effect
  | spawnE : String → List String → Effect
deriving DecidableEq

/-- An HTTP response: status code and JSON object body (ordered key/value
pairs, exactly as built by `JSON.stringify` in the handlers). -/
structure Response where
  status : Nat
  body : List (String × Json)

/-- JavaScript template-literal rendering of a possibly-null string. -/
def optStr (o : Option String) : String := o.getD "null"

/-- JavaScript falsiness of a string-valued form field: null or empty. -/
def strFalsy : Option String → Bool
  | none => true
  | some s => s.isEmpty

/-- The generic 500 failure envelope produced by every catch block. -/
def genericFailure (msg : String) : Response :=
  { status := 500, body := [("success", Json.bool false), ("error", Json.str msg)] }

/-- The 400 rejection body of the inference route. -/
def missingFields400 : Response :=
  { status := 400, body := [("success", Json.bool false), ("error", Json.str "Missing required fields")] }

def uploadsDir : String := "uploads"

def tempDir : String := "temp"

/-- The persisted filename built by the inference route:
`${patientId}_${Date.now()}_${image.name}`. -/
def fileName (patientId : Option String) (now : Nat) (imageName : String) : String :=
  optStr patientId ++ "_" ++ toString now ++ "_" ++ imageName

/-- Multipart body of an inference-route request. -/
structure InferRequest where
  image : Option FileData
  imageType : Option String
  patientName : Option String
  patientId : Option String

/-- Multipart body of a training-route POST request. -/
structure TrainRequest where
  action : Option String
  clientId : Option String
  modelUpdate : Option FileData

/-- Shared tail of the two relay POST handlers: spawn with the given
argument array (every possibly-null element string-coerced, so null becomes
the literal "null"), then await exit; non-zero exit rejects into the catch
block; with exit zero, any accumulated stderr is thrown; finally stdout is
JSON-parsed (a parse error is also caught). `mk200` builds the success body
from the parsed value. -/
def runProcess (preEffects : List Effect) (args : List (Option String))
    (proc : ProcResult) (parse : String → Option Json)
    (failMsg : String) (mk200 : Json → Response) : Response × List Effect :=
  let effects := preEffects ++ [Effect.spawnE "python" (args.map optStr)]
  if proc.exitCode = 0 then
    if proc.stderr = "" then
      match parse proc.stdout with
      | some x => (mk200 x, effects)
      | none => (genericFailure failMsg, effects)
    else (genericFailure failMsg, effects)
  else (genericFailure failMsg, effects)

/-- The inference route POST handler (the route file concatenated into
src/MedAi-Assistant/types/auth.ts, lines 13-90), as a function of the
request, the current clock (`Date.now()`), the behaviour of the spawned
process, and the JSON parser. -/
def inferPOST (req : InferRequest) (now : Nat) (proc : ProcResult)
    (parse : String → Option Json) : Response × List Effect :=
  if req.image.isNone || strFalsy req.imageType then
    (missingFields400, [])
  else
    let img := req.image.getD ⟨""⟩
    let t := optStr req.imageType
    let fn := fileName req.patientId now img.name
    let imagePath := uploadsDir ++ "/" ++ fn
    let preEffects := [Effect.mkdirE uploadsDir, Effect.writeFileE imagePath]
    let args : List (Option String) :=
      [some "fl-backend/server/inference.py",
       some "--image_path", some imagePath,
       some "--image_type", some t,
       some "--patient_id", req.patientId,
       some "--patient_name", req.patientName]
    runProcess preEffects args proc parse "Inference failed"
      (fun analysis =>
        { status := 200,
          body := [("success", Json.bool true), ("result", analysis),
                   ("imagePath", Json.str fn)] })

/-- The training route GET handler (api/train/route.ts, lines 6-45). It
attaches no stderr listener, so standard-error output is invisible to it. -/
def trainGET (proc : ProcResult) (parse : String → Option Json) :
    Response × List Effect :=
  let effects := [Effect.spawnE "python" ["fl-backend/server/cli.py", "--mode", "status"]]
  if proc.exitCode = 0 then
    match parse proc.stdout with
    | some x =>
        ({ status := 200, body := [("success", Json.bool true), ("status", x)] }, effects)
    | none => (genericFailure "Failed to get training status", effects)
  else (genericFailure "Failed to get training status", effects)

/-- The training route POST handler (api/train/route.ts, lines 47-103): it
performs no validation of the `action` field, creates the temp directory
unconditionally, persists the optional model update, then spawns the CLI. -/
def trainPOST (req : TrainRequest) (now : Nat) (proc : ProcResult)
    (parse : String → Option Json) : Response × List Effect :=
  let baseArgs : List (Option String) :=
    [some "fl-backend/server/cli.py", some "--mode", req.action,
     some "--client_id", req.clientId]
  let mk200 := fun x =>
    { status := 200, body := [("success", Json.bool true), ("result", x)] }
  match req.modelUpdate with
  | some _ =>
      let updatePath := tempDir ++ "/update_" ++ optStr req.clientId ++ "_" ++ toString now ++ ".pt"
      runProcess [Effect.mkdirE tempDir, Effect.writeFileE updatePath]
        (baseArgs ++ [some "--update_path", some updatePath]) proc parse
        "Training operation failed" mk200
  | none =>
      runProcess [Effect.mkdirE tempDir] baseArgs proc parse
        "Training operation failed" mk200

/-- The closed role set of src/MedAi-Assistant/types/auth.ts. -/
inductive UserRole where
  | doctor : UserRole
  | radiologist : UserRole
deriving DecidableEq

/-- The cookie-string rendering of a role. -/
def UserRole.toStr : UserRole → String
  | .doctor => "doctor"
  | .radiologist => "radiologist"

/-- A cookie written by `setCookie`: name, value, maxAge seconds, path. -/
structure CookieSet where
  name : String
  value : String
  maxAge : Nat
  path : String
deriving DecidableEq

/-- Observable outcome of one login-form submission. -/
structure SubmitResult where
  cookie : Option CookieSet
  navigatedTo : Option String
  errorShown : Option String
deriving DecidableEq

/-- The login view submit handler (src/app/page.tsx, handleSubmit): a
missing role selection shows an error and stops; otherwise, when both email
and password are truthy (non-empty), the role cookie is set for 24 hours on
path "/" and the router navigates to the dashboard; nothing else is
checked. -/
def handleSubmit (selectedRole : Option UserRole) (email password : String) :
    SubmitResult :=
  match selectedRole with
  | none => { cookie := none, navigatedTo := none, errorShown := some "Please select a role" }
  | some role =>
      if email = "" ∨ password = "" then
        { cookie := none, navigatedTo := none, errorShown := none }
      else
        { cookie := some { name := "userRole", value := role.toStr,
                           maxAge := 60 * 60 * 24, path := "/" },
          navigatedTo := some "/dashboard",
          errorShown := none }

/-- What the dashboard shell renders after its mount effect. -/
inductive RenderKind where
  | loading : RenderKind
  | gated : String → RenderKind
deriving DecidableEq

/-- Observable outcome of mounting the dashboard shell. -/
structure LayoutResult where
  pushedRoute : Option String
  renders : RenderKind
deriving DecidableEq

/-- The dashboard shell (src/MedAi-Assistant/app/dashboard/layout.tsx):
reads the role cookie on mount; a falsy cookie (absent or empty) pushes the
login route "/" and leaves the state null, so only the loading stub is
rendered; otherwise the role-gated layout renders with that role. -/
def dashboardLayout (cookie : Option String) : LayoutResult :=
  if strFalsy cookie then
    { pushedRoute := some "/", renders := RenderKind.loading }
  else
    { pushedRoute := none, renders := RenderKind.gated (optStr cookie) }

/-- One sidebar navigation entry (icon omitted: it is pure presentation). -/
structure MenuItem where
  label : String
  href : String
  roles : List String
deriving DecidableEq

/-- The static menu list of src/app/dashboard/components/Sidebar.tsx. -/
def menuItems : List MenuItem :=
  [ { label := "Home", href := "/dashboard", roles := ["doctor", "radiologist"] },
    { label := "Recent Uploads", href := "/dashboard/recent-uploads", roles := ["doctor", "radiologist"] },
    { label := "Upload Images", href := "/dashboard/upload", roles := ["radiologist"] },
    { label := "Book Appointment", href := "https://www.practo.com/consult", roles := ["doctor", "radiologist"] },
    { label := "Analytics", href := "/dashboard/analytics", roles := ["doctor", "radiologist"] },
    { label := "Settings", href := "/dashboard/settings", roles := ["doctor", "radiologist"] } ]

/-- The sidebar renders exactly the menu items whose role list contains the
current role: `menuItems.filter((item) => item.roles.includes(role))`. -/
def visibleItems (role : String) : List MenuItem :=
  menuItems.filter (fun item => item.roles.contains role)

/-- Client-side state observable from the dashboard shell and its cookie. -/
structure ShellState where
  roleCookie : Option String
  authenticatedRole : Option String
  consoleLog : List String
deriving DecidableEq

/-- The sidebar logout control: `onClick={() => console.log("Logout
clicked")}` writes a console line and touches nothing else. -/
def handleLogoutClick (s : ShellState) : ShellState :=
  { s with consoleLog := s.consoleLog ++ ["Logout clicked"] }

/-- A concrete fragment of the JSON grammar, used to instantiate the opaque
parse parameter at concrete inputs: it accepts exactly the text "[]", the
empty JSON array. -/
def parseEmptyArr : String → Option Json :=
  fun s => if s = "[]" then some (Json.arr []) else none

/-- The effect list of the shared relay tail never depends on the process
outcome: the pre-effects happen, then the one spawn with string-coerced
arguments. -/
theorem runProcess_effects (pre : List Effect) (args : List (Option String))
    (proc : ProcResult) (parse : String → Option Json) (failMsg : String)
    (mk200 : Json → Response) :
    (runProcess pre args proc parse failMsg mk200).2 =
      pre ++ [Effect.spawnE "python" (args.map optStr)] := by
  simp only [runProcess]
  repeat' split
  all_goals rfl

/-- C1 (amended): a multipart request to the inference endpoint missing
`image` or `type` is answered with the 400 failure envelope and performs no
filesystem or process effect at all; the training endpoint POST, by
contrast, performs no missing-action check: a request missing the action
name is never answered with 400 — the handler creates the temp directory on
disk and spawns the CLI with the literal argument "null" as the mode (the
null form field string-coerced), relaying the process outcome as usual. -/
theorem C1_missing_field_rejection :
    (∀ (req : InferRequest) (now : Nat) (proc : ProcResult)
        (parse : String → Option Json),
        req.image = none ∨ req.imageType = none →
        inferPOST req now proc parse = (missingFields400, [])) ∧
    (∀ (clientId : Option String) (mu : Option FileData) (now : Nat)
        (proc : ProcResult) (parse : String → Option Json),
        (trainPOST ⟨none, clientId, mu⟩ now proc parse).1.status ≠ 400 ∧
        Effect.mkdirE tempDir ∈ (trainPOST ⟨none, clientId, mu⟩ now proc parse).2 ∧
        ∃ rest, Effect.spawnE "python"
            ("fl-backend/server/cli.py" :: "--mode" :: "null" :: "--client_id" :: rest) ∈
          (trainPOST ⟨none, clientId, mu⟩ now proc parse).2) := by
  constructor
  · intro req now proc parse h
    rcases h with h | h <;> simp [inferPOST, h, strFalsy]
  · intro clientId mu now proc parse
    refine ⟨?_, ?_, ?_⟩
    · cases mu <;>
        · simp only [trainPOST, runProcess]
          repeat' split
          all_goals simp [genericFailure]
    · cases mu <;> simp [trainPOST, runProcess_effects]
    · cases mu with
      | none =>
          exact ⟨[optStr clientId], by simp [trainPOST, runProcess_effects, optStr]⟩
      | some u =>
          refine ⟨[optStr clientId, "--update_path",
            tempDir ++ "/update_" ++ optStr clientId ++ "_" ++ toString now ++ ".pt"], ?_⟩
          simp [trainPOST, runProcess_effects, optStr]

/-- Witness for C1: a concrete request missing the image field is rejected
with the 400 envelope and an empty effect list. -/
theorem C1_missing_field_rejection_witness :
    inferPOST ⟨none, some "ct", some "John", some "42"⟩ 0 ⟨0, "", ""⟩
        (fun _ => none) = (missingFields400, []) :=
  C1_missing_field_rejection.1 ⟨none, some "ct", some "John", some "42"⟩ 0
    ⟨0, "", ""⟩ (fun _ => none) (Or.inl rfl)

/-- C1 counterexample: a training POST whose multipart body has no action
name is not rejected with 400: the handler creates the temp directory and
spawns the CLI with the coerced argument "null" as the mode, and with a
process that exits zero printing the empty JSON array it even answers 200
with a success envelope. -/
theorem C1_counterexample :
    (trainPOST ⟨none, some "c1", none⟩ 0 ⟨0, "[]", ""⟩ parseEmptyArr).1.status = 200 ∧
    (trainPOST ⟨none, some "c1", none⟩ 0 ⟨0, "[]", ""⟩ parseEmptyArr).2 =
      [Effect.mkdirE tempDir,
       Effect.spawnE "python"
         ["fl-backend/server/cli.py", "--mode", "null", "--client_id", "c1"]] :=
  ⟨rfl, rfl⟩

/-- C2 (amended): when the external process exits zero and its stdout
parses as JSON `X`, the training POST answers 200 with body
success/result,X provided the process also wrote nothing to stderr, and the
training GET answers 200 with body success/status,X regardless of stderr
(the GET handler attaches no stderr listener). -/
theorem C2_training_success_envelope :
    (∀ (action clientId : String) (mu : Option FileData) (now : Nat)
        (proc : ProcResult) (parse : String → Option Json) (x : Json),
        proc.exitCode = 0 → proc.stderr = "" → parse proc.stdout = some x →
        (trainPOST ⟨some action, some clientId, mu⟩ now proc parse).1 =
          { status := 200, body := [("success", Json.bool true), ("result", x)] }) ∧
    (∀ (proc : ProcResult) (parse : String → Option Json) (x : Json),
        proc.exitCode = 0 → parse proc.stdout = some x →
        (trainGET proc parse).1 =
          { status := 200, body := [("success", Json.bool true), ("status", x)] }) := by
  constructor
  · intro action clientId mu now proc parse x h0 hs hp
    cases mu <;> simp [trainPOST, runProcess, h0, hs, hp]
  · intro proc parse x h0 hp
    simp [trainGET, h0, hp]

/-- Witness for C2: a concrete POST and GET against a process that exits
zero printing the empty JSON array with a silent stderr. -/
theorem C2_training_success_envelope_witness :
    (trainPOST ⟨some "start_round", some "c1", none⟩ 0 ⟨0, "[]", ""⟩ parseEmptyArr).1 =
      { status := 200, body := [("success", Json.bool true), ("result", Json.arr [])] } ∧
    (trainGET ⟨0, "[]", ""⟩ parseEmptyArr).1 =
      { status := 200, body := [("success", Json.bool true), ("status", Json.arr [])] } :=
  ⟨C2_training_success_envelope.1 "start_round" "c1" none 0 ⟨0, "[]", ""⟩
      parseEmptyArr (Json.arr []) rfl rfl (by simp [parseEmptyArr]),
   C2_training_success_envelope.2 ⟨0, "[]", ""⟩ parseEmptyArr (Json.arr [])
      rfl (by simp [parseEmptyArr])⟩

/-- C2 counterexample: with exit code zero and valid JSON on stdout but a
non-empty stderr, the training POST answers the 500 failure envelope, not
the success body the claim promises. -/
theorem C2_counterexample :
    (trainPOST ⟨some "start_round", some "c1", none⟩ 0 ⟨0, "[]", "warning"⟩ parseEmptyArr).1.status = 500 ∧
    (trainPOST ⟨some "start_round", some "c1", none⟩ 0 ⟨0, "[]", "warning"⟩ parseEmptyArr).1.body =
      [("success", Json.bool false), ("error", Json.str "Training operation failed")] :=
  ⟨rfl, rfl⟩

/-- C3 (amended): every external-process invocation that exits non-zero is
answered with the generic 500 failure envelope, on all three handlers; a
non-empty stderr with exit zero also yields the 500 envelope on the
inference POST and training POST; the training GET, however, attaches no
stderr listener, so stderr alone never fails it. -/
theorem C3_process_failure_envelope :
    (∀ (img : FileData) (t pid pname : String) (now : Nat) (proc : ProcResult)
        (parse : String → Option Json),
        t ≠ "" → proc.exitCode ≠ 0 →
        (inferPOST ⟨some img, some t, some pname, some pid⟩ now proc parse).1 =
          genericFailure "Inference failed") ∧
    (∀ (action clientId : String) (mu : Option FileData) (now : Nat)
        (proc : ProcResult) (parse : String → Option Json),
        proc.exitCode ≠ 0 →
        (trainPOST ⟨some action, some clientId, mu⟩ now proc parse).1 =
          genericFailure "Training operation failed") ∧
    (∀ (proc : ProcResult) (parse : String → Option Json),
        proc.exitCode ≠ 0 →
        (trainGET proc parse).1 = genericFailure "Failed to get training status") ∧
    (∀ (img : FileData) (t pid pname : String) (now : Nat) (proc : ProcResult)
        (parse : String → Option Json),
        t ≠ "" → proc.exitCode = 0 → proc.stderr ≠ "" →
        (inferPOST ⟨some img, some t, some pname, some pid⟩ now proc parse).1 =
          genericFailure "Inference failed") ∧
    (∀ (action clientId : String) (mu : Option FileData) (now : Nat)
        (proc : ProcResult) (parse : String → Option Json),
        proc.exitCode = 0 → proc.stderr ≠ "" →
        (trainPOST ⟨some action, some clientId, mu⟩ now proc parse).1 =
          genericFailure "Training operation failed") := by
  refine ⟨?_, ?_, ?_, ?_, ?_⟩
  · intro img t pid pname now proc parse ht h0
    have ht2 : (t.isEmpty) = false :=
      Bool.eq_false_iff.mpr (fun hh => ht ((String.isEmpty_iff t).mp hh))
    simp [inferPOST, runProcess, strFalsy, optStr, ht2, h0]
  · intro action clientId mu now proc parse h0
    cases mu <;> simp [trainPOST, runProcess, h0]
  · intro proc parse h0
    simp [trainGET, h0]
  · intro img t pid pname now proc parse ht h0 hs
    have ht2 : (t.isEmpty) = false :=
      Bool.eq_false_iff.mpr (fun hh => ht ((String.isEmpty_iff t).mp hh))
    simp [inferPOST, runProcess, strFalsy, optStr, ht2, h0, hs]
  · intro action clientId mu now proc parse h0 hs
    cases mu <;> simp [trainPOST, runProcess, h0, hs]

/-- Witness for C3: concrete failing invocations on all five covered
shapes (non-zero exit on each handler, then stderr output on each POST). -/
theorem C3_process_failure_envelope_witness :
    (inferPOST ⟨some ⟨"scan.dcm"⟩, some "ct", some "John", some "42"⟩ 0 ⟨1, "", ""⟩ parseEmptyArr).1 =
      genericFailure "Inference failed" ∧
    (trainPOST ⟨some "start_round", some "c1", none⟩ 0 ⟨1, "", ""⟩ parseEmptyArr).1 =
      genericFailure "Training operation failed" ∧
    (trainGET ⟨1, "", ""⟩ parseEmptyArr).1 = genericFailure "Failed to get training status" ∧
    (inferPOST ⟨some ⟨"scan.dcm"⟩, some "ct", some "John", some "42"⟩ 0 ⟨0, "[]", "oops"⟩ parseEmptyArr).1 =
      genericFailure "Inference failed" ∧
    (trainPOST ⟨some "start_round", some "c1", none⟩ 0 ⟨0, "[]", "oops"⟩ parseEmptyArr).1 =
      genericFailure "Training operation failed" :=
  ⟨C3_process_failure_envelope.1 ⟨"scan.dcm"⟩ "ct" "42" "John" 0 ⟨1, "", ""⟩
      parseEmptyArr (by decide) (by decide),
   C3_process_failure_envelope.2.1 "start_round" "c1" none 0 ⟨1, "", ""⟩
      parseEmptyArr (by decide),
   C3_process_failure_envelope.2.2.1 ⟨1, "", ""⟩ parseEmptyArr (by decide),
   C3_process_failure_envelope.2.2.2.1 ⟨"scan.dcm"⟩ "ct" "42" "John" 0
      ⟨0, "[]", "oops"⟩ parseEmptyArr (by decide) rfl (by decide),
   C3_process_failure_envelope.2.2.2.2 "start_round" "c1" none 0
      ⟨0, "[]", "oops"⟩ parseEmptyArr rfl (by decide)⟩

/-- C3 counterexample: the training GET ignores standard error entirely; a
process that exits zero, prints the empty JSON array on stdout and writes
"boom" on stderr is answered with the 200 success envelope, not the 500
failure envelope the claim requires for any stderr output. -/
theorem C3_counterexample :
    (trainGET ⟨0, "[]", "boom"⟩ parseEmptyArr).1 =
      { status := 200, body := [("success", Json.bool true), ("status", Json.arr [])] } ∧
    (trainGET ⟨0, "[]", "boom"⟩ parseEmptyArr).1.status ≠ 500 :=
  ⟨rfl, by decide⟩

/-- C4 (amended): every inference response body is one of two shapes, and
in both the key "success" comes first: the failure bodies carry exactly the
keys success and error, while the 200 success body carries exactly the keys
success, result and imagePath (the extra imagePath field holds the
persisted filename and falls outside the claimed schema). -/
theorem C4_response_schema :
    ∀ (req : InferRequest) (now : Nat) (proc : ProcResult)
      (parse : String → Option Json),
      (inferPOST req now proc parse).1.body.map Prod.fst = ["success", "error"] ∨
      (inferPOST req now proc parse).1.body.map Prod.fst = ["success", "result", "imagePath"] := by
  intro req now proc parse
  simp only [inferPOST, runProcess]
  repeat' split
  all_goals simp [genericFailure, missingFields400]

/-- C4 counterexample: a successful inference response contains the key
imagePath, which is outside the claimed schema of success, result, error. -/
theorem C4_counterexample :
    "imagePath" ∈ (inferPOST ⟨some ⟨"scan.dcm"⟩, some "ct", some "John", some "42"⟩
        0 ⟨0, "[]", ""⟩ parseEmptyArr).1.body.map Prod.fst ∧
    "imagePath" ∉ (["success", "result", "error"] : List String) := by
  constructor
  · show "imagePath" ∈ ["success", "result", "imagePath"]
    decide
  · decide

/-- C5: for an upload named scan.dcm with type ct and patientId 42, at any
clock value the persisted filename decomposes as the literal "42_" followed
by some middle followed by the literal "scan.dcm" (so both substrings occur
and in that order), and the inference handler indeed performs a file write
at that name inside the uploads directory. -/
theorem C5_persisted_filename :
    ∀ (now : Nat) (proc : ProcResult) (parse : String → Option Json),
      (∃ mid, fileName (some "42") now "scan.dcm" = "42_" ++ mid ++ "scan.dcm") ∧
      Effect.writeFileE (uploadsDir ++ "/" ++ fileName (some "42") now "scan.dcm") ∈
        (inferPOST ⟨some ⟨"scan.dcm"⟩, some "ct", some "John Doe", some "42"⟩
          now proc parse).2 := by
  intro now proc parse
  constructor
  · refine ⟨toString now ++ "_", ?_⟩
    simp [fileName, optStr, String.append_assoc]
  · have hct : ("ct".isEmpty) = false := by decide
    simp only [inferPOST, runProcess]
    repeat' split
    all_goals simp_all [fileName, optStr, strFalsy, hct]

/-- C6: with role doctor the sidebar omits the Upload Images item, with
role radiologist it includes it, and in general the visible items are
exactly the menu items whose static role list contains the current role. -/
theorem C6_sidebar_role_filter :
    (∀ item ∈ visibleItems "doctor", item.label ≠ "Upload Images") ∧
    (∃ item ∈ visibleItems "radiologist", item.label = "Upload Images") ∧
    (∀ (role : String) (item : MenuItem),
        item ∈ visibleItems role ↔ item ∈ menuItems ∧ role ∈ item.roles) := by
  refine ⟨by decide, by decide, ?_⟩
  intro role item
  simp [visibleItems, List.mem_filter, List.elem_iff]

/-- Witness for C6: the Home item is visible to doctors yet is not the
Upload Images item, and the Upload Images item is visible to
radiologists. -/
theorem C6_sidebar_role_filter_witness :
    ({ label := "Home", href := "/dashboard",
       roles := ["doctor", "radiologist"] } : MenuItem).label ≠ "Upload Images" ∧
    ({ label := "Upload Images", href := "/dashboard/upload",
       roles := ["radiologist"] } : MenuItem) ∈ visibleItems "radiologist" :=
  ⟨C6_sidebar_role_filter.1 _ (by decide),
   (C6_sidebar_role_filter.2.2 "radiologist" _).mpr ⟨by decide, by decide⟩⟩

/-- C7: mounting the dashboard shell with no role cookie pushes the login
route "/" and renders only the loading stub, never the role-gated
layout. -/
theorem C7_absent_cookie_redirects :
    dashboardLayout none =
      { pushedRoute := some "/", renders := RenderKind.loading } ∧
    ∀ r, (dashboardLayout none).renders ≠ RenderKind.gated r := by
  constructor
  · rfl
  · intro r
    simp [dashboardLayout, strFalsy]

/-- C8: submitting the login form with a selected role and non-empty email
and password sets the userRole cookie to that role for 86400 seconds on
path "/" and navigates to the dashboard; with no role selected it shows the
error and sets no cookie; the role string is always one of the two allowed
values; nothing beyond non-emptiness of the credentials is checked. -/
theorem C8_login_submit :
    (∀ (role : UserRole) (email password : String),
        email ≠ "" → password ≠ "" →
        handleSubmit (some role) email password =
          { cookie := some { name := "userRole", value := role.toStr,
                             maxAge := 60 * 60 * 24, path := "/" },
            navigatedTo := some "/dashboard", errorShown := none }) ∧
    (∀ email password,
        handleSubmit none email password =
          { cookie := none, navigatedTo := none,
            errorShown := some "Please select a role" }) ∧
    (∀ role : UserRole, role.toStr = "doctor" ∨ role.toStr = "radiologist") := by
  refine ⟨?_, ?_, ?_⟩
  · intro role email password he hp
    simp [handleSubmit, he, hp]
  · intro email password
    rfl
  · intro role
    cases role
    · exact Or.inl rfl
    · exact Or.inr rfl

/-- Witness for C8: a concrete submission as doctor with non-empty
credentials sets the doctor cookie and navigates to the dashboard. -/
theorem C8_login_submit_witness :
    handleSubmit (some UserRole.doctor) "doctor@hospital.com" "pw" =
      { cookie := some { name := "userRole", value := "doctor",
                         maxAge := 60 * 60 * 24, path := "/" },
        navigatedTo := some "/dashboard", errorShown := none } :=
  C8_login_submit.1 UserRole.doctor "doctor@hospital.com" "pw"
    (by decide) (by decide)

/-- C9: the logout control is inert: any number of clicks leaves both the
role cookie and the authenticated-as-role state of the shell unchanged. -/
theorem C9_logout_inert :
    ∀ (n : Nat) (s : ShellState),
      (handleLogoutClick^[n] s).roleCookie = s.roleCookie ∧
      (handleLogoutClick^[n] s).authenticatedRole = s.authenticatedRole := by
  intro n
  induction n with
  | zero => intro s; exact ⟨rfl, rfl⟩
  | succ k ih =>
      intro s
      rw [Function.iterate_succ_apply]
      exact ⟨(ih (handleLogoutClick s)).1, (ih (handleLogoutClick s)).2⟩
